import Mathlib

set_option autoImplicit false

/-!
Shallow embedding of `src/core/posix/fork.cpp` from process-cpp.

The file models the two launchers `core::posix::fork` and `core::posix::vfork`,
their helper functions `redirect_stream_to_fd`, `demangle`, `print_backtrace`
and `is_child`, and the collaborator types they use.  OS primitives
(`::fork`/`::vfork`, `::dup2`, `::backtrace`/`backtrace_symbols`,
`abi::__cxa_demangle`, pipe allocation) are passed in as explicit oracles, so
every definition stays executable and each possible OS behaviour can be
examined.  The headers `core/posix/exit.h`, `core/posix/fork.h` and
`core/posix/child_process.h` are not among the sources; the types they declare
are modelled from the specification, as marked on each such definition.
-/

namespace CorePosix

/-- Modelled from the spec: `core::posix::exit::Status` (declared in
`core/posix/exit.h`, which is not among the sources): "a process's terminal
disposition, collapsed here to success/failure". -/
inductive Status where
  | success
  | failure
  deriving DecidableEq, Repr

/-- Modelled from the spec: the `StandardStream` flags value (declared in
`core/posix/fork.h`, which is not among the sources): "an immutable bitmask
value over {stdin, stdout, stderr, none}".  A flags value is represented by
its three membership bits, so the source test
`(flags & StandardStream::stdin) != StandardStream::empty` is `flags.stdin =
true`, and similarly for the other two bits. -/
structure StandardStream where
  stdin : Bool
  stdout : Bool
  stderr : Bool
  deriving DecidableEq, Repr

/-- The empty flags value `StandardStream::empty`: no stream bit set. -/
def StandardStream.empty : StandardStream := ⟨false, false, false⟩

/-- Number of stream bits set in a flags value. -/
def StandardStream.bits (f : StandardStream) : Nat :=
  (if f.stdin then 1 else 0) + (if f.stdout then 1 else 0) +
    (if f.stderr then 1 else 0)

/-- Modelled from the spec: `ChildProcess::Pipe` (declared in
`core/posix/child_process.h`, which is not among the sources): "two descriptor
endpoints (read, write)"; "a distinguished invalid value holds neither and
makes both close operations safe no-ops, repeatable".  A held endpoint is a
descriptor `≥ 0`; an absent or closed endpoint is `-1`. -/
structure Pipe where
  read_fd : Int
  write_fd : Int
  deriving DecidableEq, Repr

/-- Modelled from the spec: the zero-syscall sentinel
`ChildProcess::Pipe::invalid()`, holding neither endpoint. -/
def Pipe.invalid : Pipe := ⟨-1, -1⟩

/-- Close the read end: afterwards the pipe no longer holds it.  A no-op (the
value is unchanged) when the end is already absent, hence idempotent and safe
on the invalid sentinel. -/
def Pipe.close_read_fd (p : Pipe) : Pipe := { p with read_fd := -1 }

/-- Close the write end; same contract as `Pipe.close_read_fd`. -/
def Pipe.close_write_fd (p : Pipe) : Pipe := { p with write_fd := -1 }

/-- A pipe value that actually holds an endpoint (as a freshly allocated real
pipe does, unlike the invalid sentinel). -/
def Pipe.holds_an_end (p : Pipe) : Prop := 0 ≤ p.read_fd ∨ 0 ≤ p.write_fd

/-- The three pipes of one launcher run, together with how many runs of the
allocating constructor `ChildProcess::Pipe()` produced them. -/
structure PipeSetup where
  stdin_pipe : Pipe
  stdout_pipe : Pipe
  stderr_pipe : Pipe
  allocCount : Nat
  deriving DecidableEq, Repr

/-- Pipe set-up of `core::posix::fork`: each pipe starts as
`ChildProcess::Pipe::invalid()` and is replaced by a freshly allocated pipe
exactly when its stream bit is set in `flags`.  `alloc n` is the OS model of
the pipe returned by the `(n+1)`-st run of the allocating constructor. -/
def fork_pipe_setup (alloc : Nat → Pipe) (flags : StandardStream) : PipeSetup :=
  let stdin_pipe := if flags.stdin then alloc 0 else Pipe.invalid
  let c1 : Nat := if flags.stdin then 1 else 0
  let stdout_pipe := if flags.stdout then alloc c1 else Pipe.invalid
  let c2 := c1 + (if flags.stdout then 1 else 0)
  let stderr_pipe := if flags.stderr then alloc c2 else Pipe.invalid
  let c3 := c2 + (if flags.stderr then 1 else 0)
  ⟨stdin_pipe, stdout_pipe, stderr_pipe, c3⟩

/-- Modelled from the spec: pipe set-up of `core::posix::vfork`, whose three
pipes are default-constructed with no reference to `flags`; per the spec the
address-space-sharing path "always uses empty/no-op pipes regardless of
flags", so all three are the invalid sentinel and nothing is allocated. -/
def vfork_pipe_setup (_flags : StandardStream) : PipeSetup :=
  ⟨Pipe.invalid, Pipe.invalid, Pipe.invalid, 0⟩

/-- The process descriptor table, restricted to what redirection touches:
which descriptor each slot refers to. -/
def FdTable : Type := Nat → Int

/-- OS model of one `::dup2(fd, stream)` call: `ok`, or `err e` for a `-1`
return with `errno = e`. -/
inductive Dup2Result where
  | ok
  | err (errno : Nat)
  deriving DecidableEq, Repr

/-- A fault travelling by C++ exception inside the launchers.  `sysError e` is
a `std::system_error` carrying OS error code `e` (it is a `std::exception`);
`stdExc` is any other `std::exception` thrown by the entry callable;
`otherExc` is any thrown value that is not a `std::exception`. -/
inductive Fault where
  | sysError (errno : Nat)
  | stdExc
  | otherExc
  deriving DecidableEq, Repr

/-- Whether the fault is caught by the `catch (const std::exception&)` handler
(otherwise the `catch (...)` handler catches it). -/
def Fault.is_std_exception : Fault → Bool
  | .sysError _ => true
  | .stdExc => true
  | .otherExc => false

/-- `redirect_stream_to_fd(fd, stream)` from fork.cpp: `::dup2(fd, stream)`;
on success the table slot `stream` now refers to `fd`; a `-1` return throws
`std::system_error(errno, ...)`. -/
def redirect_stream_to_fd (os : Int → Nat → Dup2Result) (t : FdTable)
    (fd : Int) (stream : Nat) : Except Fault FdTable :=
  match os fd stream with
  | .ok => .ok (fun s => if s = stream then fd else t s)
  | .err e => .error (.sysError e)

/-- `demangle(symbol)` from fork.cpp.  `cxa` is the OS model of
`abi::__cxa_demangle`: `none` when it returns a null result or a non-zero
status (the source then yields `("", false)`), `some s` for a successful
demangling to `s`. -/
def demangle (cxa : List Char → Option (List Char)) (symbol : List Char) :
    List Char × Bool :=
  match cxa symbol with
  | none => ([], false)
  | some s => (s, true)

/-- `std::string::find_first_of` with a single search character: index of the
first occurrence, `none` for `npos`. -/
def find_first_of (s : List Char) (c : Char) : Option Nat :=
  match s with
  | [] => none
  | x :: xs => if x = c then some 0 else (find_first_of xs c).map (· + 1)

/-- `std::string::find_last_of` with a single search character: index of the
last occurrence, `none` for `npos`. -/
def find_last_of (s : List Char) (c : Char) : Option Nat :=
  (find_first_of s.reverse c).map (fun i => s.length - 1 - i)

/-- `std::string::substr(pos, count)` for `pos ≤ size`: up to `count`
characters starting at `pos`, clamped at the end of the string. -/
def substr (s : List Char) (pos count : Nat) : List Char :=
  (s.drop pos).take count

/-- The `size_t` value of the source expression `(last - 1) - (first + 1)`:
unsigned 64-bit arithmetic, so the difference is taken modulo `2 ^ 64` and
underflows to a huge count when `last < first + 2`. -/
def size_t_sub2 (last first : Nat) : Nat :=
  (((last : Int) - (first : Int) - 2) % (2 ^ 64 : Int)).toNat

/-- The offset-stripping step of `print_backtrace`'s loop body:
`auto plus = mangled_symbol.find_first_of("+"); if (plus != npos)
mangled_symbol.erase(plus);` — drop everything from the first `+` on. -/
def strip_plus (s : List Char) : List Char :=
  match find_first_of s '+' with
  | some plus => s.take plus
  | none => s

/-- The loop body of `print_backtrace` for one frame's raw symbol text: when
both a `(` and a `)` are found, take `substr(first+1, (last-1)-(first+1))`,
erase from the first `+` on (if any, see `strip_plus`), try `demangle`, and
replace the text on success; otherwise keep the raw text. -/
def process_symbol (cxa : List Char → Option (List Char))
    (symbol : List Char) : List Char :=
  match find_first_of symbol '(' , find_last_of symbol ')' with
  | some first, some last =>
    let mangled := strip_plus (substr symbol (first + 1) (size_t_sub2 last first))
    let d := demangle cxa mangled
    if d.2 then d.1 else symbol
  | _, _ => symbol

/-- `static const unsigned int max_frames = 100` from `print_backtrace`. -/
def max_frames : Nat := 100

/-- One stack frame as the unwinder reports it: the frame address
(`frames[i]`) and the raw `backtrace_symbols` text for it. -/
structure Frame where
  address : Nat
  symbolText : List Char
  deriving DecidableEq, Repr

/-- One emitted line `out << "\t" << std::hex << frames[i] << ": " << symbol
<< std::endl`, kept structurally as the address and the processed symbol. -/
structure BacktraceLine where
  address : Nat
  symbol : List Char
  deriving DecidableEq, Repr

/-- The text of one emitted line: a tab, the address in hexadecimal (the
pointer inserter prints `0x` followed by hex digits), `": "`, the symbol, and
the newline of `std::endl`. -/
def render_line (l : BacktraceLine) : List Char :=
  '\t' :: '0' :: 'x' :: (Nat.toDigits 16 l.address ++ ':' :: ' ' :: l.symbol)
    ++ ['\n']

/-- `print_backtrace(out)` from fork.cpp.  `stack` is the OS model of the
current call stack, innermost frame first; `::backtrace(frames, max_frames)`
captures at most `max_frames` of its frames, and one line is emitted per
captured frame, in order. -/
def print_backtrace (cxa : List Char → Option (List Char))
    (stack : List Frame) : List BacktraceLine :=
  (stack.take max_frames).map (fun f => ⟨f.address, process_symbol cxa f.symbolText⟩)

/-- Which of the three pipes an event refers to. -/
inductive StreamId where
  | stdinS
  | stdoutS
  | stderrS
  deriving DecidableEq, Repr

/-- An observable action of the child-side block, in program order:
a pipe-end close, a `redirect_stream_to_fd` call (with the source descriptor
and the standard slot), or the invocation of the entry callable. -/
inductive Event where
  | closeRead (s : StreamId)
  | closeWrite (s : StreamId)
  | redirectCall (fd : Int) (slot : Nat)
  | entryInvoked
  deriving DecidableEq, Repr

/-- The state the child-side block acts on: its three inherited pipes and its
descriptor table. -/
structure ChildState where
  stdin_pipe : Pipe
  stdout_pipe : Pipe
  stderr_pipe : Pipe
  fds : FdTable

/-- Behaviour of one invocation of the entry callable `main`: return a status
normally, throw a `std::exception`, or throw anything else. -/
inductive EntryBehavior where
  | ret (s : Status)
  | throwStd
  | throwOther
  deriving DecidableEq, Repr

/-- `result = main()` under the fault model: the returned status, or the
escaping fault. -/
def runEntry : EntryBehavior → Except Fault Status
  | .ret s => .ok s
  | .throwStd => .error .stdExc
  | .throwOther => .error .otherExc

/-- The three closes at the top of the child-side `try` block:
`stdin_pipe.close_write_fd(); stdout_pipe.close_read_fd();
stderr_pipe.close_read_fd();`. -/
def close_unneeded_ends (st : ChildState) : ChildState :=
  { st with
    stdin_pipe := st.stdin_pipe.close_write_fd
    stdout_pipe := st.stdout_pipe.close_read_fd
    stderr_pipe := st.stderr_pipe.close_read_fd }

/-- The trace of those three closes, in program order. -/
def close_events : List Event :=
  [Event.closeWrite .stdinS, Event.closeRead .stdoutS, Event.closeRead .stderrS]

/-- One flag-guarded redirection step
`if ((flags & bit) != StandardStream::empty) redirect_stream_to_fd(fd, slot);`:
its trace, the state after it, and the fault it threw (if any). -/
def redirect_if (os : Int → Nat → Dup2Result) (cond : Bool) (fd : Int)
    (slot : Nat) (st : ChildState) : List Event × ChildState × Option Fault :=
  if cond then
    match redirect_stream_to_fd os st.fds fd slot with
    | .ok t => ([Event.redirectCall fd slot], { st with fds := t }, none)
    | .error f => ([Event.redirectCall fd slot], st, some f)
  else ([], st, none)

/-- The three flag-guarded redirections of the child-side `try` block, onto
`STDIN_FILENO = 0`, `STDOUT_FILENO = 1`, `STDERR_FILENO = 2`; a thrown fault
skips the remaining steps. -/
def child_redirects (os : Int → Nat → Dup2Result) (flags : StandardStream)
    (st : ChildState) : List Event × ChildState × Option Fault :=
  match redirect_if os flags.stdin st.stdin_pipe.read_fd 0 st with
  | (e1, st1, some f) => (e1, st1, some f)
  | (e1, st1, none) =>
    match redirect_if os flags.stdout st1.stdout_pipe.write_fd 1 st1 with
    | (e2, st2, some f) => (e1 ++ e2, st2, some f)
    | (e2, st2, none) =>
      match redirect_if os flags.stderr st2.stderr_pipe.write_fd 2 st2 with
      | (e3, st3, r) => (e1 ++ e2 ++ e3, st3, r)

/-- What one run of the child-side block did before its `::exit`: the ordered
trace of pipe/stream/entry actions, the fault caught at the boundary (if any;
each catch handler writes its message and `print_backtrace` to `std::cerr`
before falling through), the status passed to `::exit`, and the final pipe and
descriptor state. -/
structure ChildResult where
  events : List Event
  caught : Option Fault
  status : Status
  finalState : ChildState

/-- The child path of `core::posix::fork` (the `is_child(pid)` branch):
`result` starts as failure; the `try` block closes the unneeded pipe ends, runs
the flag-guarded redirections, and sets `result = main()`; both catch handlers
leave `result` as failure; then `::exit(result)` unconditionally. -/
def fork_child_run (os : Int → Nat → Dup2Result) (flags : StandardStream)
    (entry : EntryBehavior) (st0 : ChildState) : ChildResult :=
  let st1 := close_unneeded_ends st0
  match child_redirects os flags st1 with
  | (evs, st2, some f) => ⟨close_events ++ evs, some f, .failure, st2⟩
  | (evs, st2, none) =>
    match runEntry entry with
    | .ok s => ⟨close_events ++ evs ++ [.entryInvoked], none, s, st2⟩
    | .error f => ⟨close_events ++ evs ++ [.entryInvoked], some f, .failure, st2⟩

/-- The child path of `core::posix::vfork`, translated from its own (textually
repeated) block in the source: same closes, same flag-guarded redirections,
same fault boundary around `result = main()`, same unconditional
`::exit(result)`. -/
def vfork_child_run (os : Int → Nat → Dup2Result) (flags : StandardStream)
    (entry : EntryBehavior) (st0 : ChildState) : ChildResult :=
  let st1 := close_unneeded_ends st0
  match child_redirects os flags st1 with
  | (evs, st2, some f) => ⟨close_events ++ evs, some f, .failure, st2⟩
  | (evs, st2, none) =>
    match runEntry entry with
    | .ok s => ⟨close_events ++ evs ++ [.entryInvoked], none, s, st2⟩
    | .error f => ⟨close_events ++ evs ++ [.entryInvoked], some f, .failure, st2⟩

/-- Modelled from the spec: the `ChildProcess` handle (declared in
`core/posix/child_process.h`, which is not among the sources): "immutable
tuple of (process id, up to three Pipes representing the parent's retained
ends)". -/
structure ChildProcess where
  pid : Int
  stdin_pipe : Pipe
  stdout_pipe : Pipe
  stderr_pipe : Pipe

/-- `is_child(pid)` from fork.cpp. -/
def is_child (pid : Int) : Bool := pid == 0

/-- Everything a launcher run can do for its caller: propagate a
`std::system_error` with the OS error code (duplication returned `-1`), run
the child path to its `::exit` (never reaching the call site), or return a
`ChildProcess` handle on the parent path. -/
inductive ForkOutcome where
  | error (errno : Nat)
  | childExited (r : ChildResult)
  | parent (h : ChildProcess)

/-- `core::posix::fork(main, flags)`.  `alloc` models the allocating pipe
constructor, `osFork` models the `::fork()` call (`Except.error e` for a `-1`
return with `errno = e`, `Except.ok pid` otherwise), `os` models `::dup2`,
and `fds0` is the descriptor table the child inherits. -/
def fork (alloc : Nat → Pipe) (osFork : Except Nat Int)
    (os : Int → Nat → Dup2Result) (entry : EntryBehavior)
    (flags : StandardStream) (fds0 : FdTable) : ForkOutcome :=
  let setup := fork_pipe_setup alloc flags
  match osFork with
  | .error e => .error e
  | .ok pid =>
    if is_child pid then
      .childExited (fork_child_run os flags entry
        ⟨setup.stdin_pipe, setup.stdout_pipe, setup.stderr_pipe, fds0⟩)
    else
      .parent ⟨pid, setup.stdin_pipe.close_read_fd,
        setup.stdout_pipe.close_write_fd, setup.stderr_pipe.close_write_fd⟩

/-- `core::posix::vfork(main, flags)`: default-constructed pipes (see
`vfork_pipe_setup`), then the same shape as `fork` with `::vfork()` in place
of `::fork()`. -/
def vfork (osFork : Except Nat Int) (os : Int → Nat → Dup2Result)
    (entry : EntryBehavior) (flags : StandardStream) (fds0 : FdTable) :
    ForkOutcome :=
  let setup := vfork_pipe_setup flags
  match osFork with
  | .error e => .error e
  | .ok pid =>
    if is_child pid then
      .childExited (vfork_child_run os flags entry
        ⟨setup.stdin_pipe, setup.stdout_pipe, setup.stderr_pipe, fds0⟩)
    else
      .parent ⟨pid, setup.stdin_pipe.close_read_fd,
        setup.stdout_pipe.close_write_fd, setup.stderr_pipe.close_write_fd⟩

/-- The per-frame symbol processing as the specification words it (for
comparison with `process_symbol`, which is translated from the source): when
the text contains a parenthesized mangled-name segment, the segment — the
characters strictly between the first `(` and the last `)` — is isolated, any
suffix from the first `+` on is stripped, and demangling is attempted on it;
on success the readable name is substituted, on failure the raw text is
kept. -/
def process_symbol_claim (cxa : List Char → Option (List Char))
    (symbol : List Char) : List Char :=
  match find_first_of symbol '(' , find_last_of symbol ')' with
  | some first, some last =>
    let segment := substr symbol (first + 1) (last - (first + 1))
    match cxa (strip_plus segment) with
    | some d => d
    | none => symbol
  | _, _ => symbol

/-! ### Concrete oracles and inputs, for evaluating the model at a point -/

/-- A dup2 oracle on which every call succeeds. -/
def osOk : Int → Nat → Dup2Result := fun _ _ => Dup2Result.ok

/-- A dup2 oracle on which every call returns -1 with `errno = 9` (`EBADF`). -/
def osFail9 : Int → Nat → Dup2Result := fun _ _ => Dup2Result.err 9

/-- A pipe allocator handing out the descriptor pair (3, 4) on every run. -/
def alloc34 : Nat → Pipe := fun _ => ⟨3, 4⟩

/-- A descriptor table with nothing open. -/
def fds_empty : FdTable := fun _ => -1

/-- A child state with three real inherited pipes. -/
def sampleChildState : ChildState := ⟨⟨3, 4⟩, ⟨5, 6⟩, ⟨7, 8⟩, fds_empty⟩

/-- A demangler oracle recognizing exactly the mangled name `_Z3foov`. -/
def cxa_foo : List Char → Option (List Char) :=
  fun s => if s = "_Z3foov".toList then some "foo()".toList else none

/-! ### Helper lemmas -/

theorem redirect_if_fst (os : Int → Nat → Dup2Result) (c : Bool) (fd : Int)
    (slot : Nat) (st : ChildState) :
    (redirect_if os c fd slot st).1 =
      if c then [Event.redirectCall fd slot] else [] := by
  cases c
  · rfl
  · rcases h : os fd slot <;>
      simp [redirect_if, redirect_stream_to_fd, h]

theorem redirect_if_pipes (os : Int → Nat → Dup2Result) (c : Bool) (fd : Int)
    (slot : Nat) (st : ChildState) :
    (redirect_if os c fd slot st).2.1.stdin_pipe = st.stdin_pipe ∧
    (redirect_if os c fd slot st).2.1.stdout_pipe = st.stdout_pipe ∧
    (redirect_if os c fd slot st).2.1.stderr_pipe = st.stderr_pipe := by
  cases c
  · exact ⟨rfl, rfl, rfl⟩
  · rcases h : os fd slot <;>
      simp [redirect_if, redirect_stream_to_fd, h]

theorem mem_ite_redirect {e : Event} {c : Bool} {fd : Int} {slot : Nat}
    (he : e ∈ if c then [Event.redirectCall fd slot] else []) :
    e = Event.redirectCall fd slot := by
  cases c
  · simp at he
  · simpa using he

theorem child_redirects_fst_shape (os : Int → Nat → Dup2Result)
    (flags : StandardStream) (st : ChildState) :
    ∀ e ∈ (child_redirects os flags st).1, ∃ fd slot, e = Event.redirectCall fd slot := by
  unfold child_redirects
  split
  · next e1 st1 f heq =>
      intro e he
      have h1 : e1 = (redirect_if os flags.stdin st.stdin_pipe.read_fd 0 st).1 :=
        (congrArg (fun p => p.1) heq).symm
      rw [h1, redirect_if_fst] at he
      exact ⟨_, _, mem_ite_redirect he⟩
  · next e1 st1 heq =>
      split
      · next e2 st2 f heq2 =>
          intro e he
          have h1 : e1 = (redirect_if os flags.stdin st.stdin_pipe.read_fd 0 st).1 :=
            (congrArg (fun p => p.1) heq).symm
          have h2 : e2 = (redirect_if os flags.stdout st1.stdout_pipe.write_fd 1 st1).1 :=
            (congrArg (fun p => p.1) heq2).symm
          rw [List.mem_append, h1, h2, redirect_if_fst, redirect_if_fst] at he
          rcases he with he | he
          · exact ⟨_, _, mem_ite_redirect he⟩
          · exact ⟨_, _, mem_ite_redirect he⟩
      · next e2 st2 heq2 =>
          split
          next e3 st3 r heq3 =>
            intro e he
            have h1 : e1 = (redirect_if os flags.stdin st.stdin_pipe.read_fd 0 st).1 :=
              (congrArg (fun p => p.1) heq).symm
            have h2 : e2 = (redirect_if os flags.stdout st1.stdout_pipe.write_fd 1 st1).1 :=
              (congrArg (fun p => p.1) heq2).symm
            have h3 : e3 = (redirect_if os flags.stderr st2.stderr_pipe.write_fd 2 st2).1 :=
              (congrArg (fun p => p.1) heq3).symm
            rw [List.append_assoc, List.mem_append, List.mem_append,
              h1, h2, h3, redirect_if_fst, redirect_if_fst, redirect_if_fst] at he
            rcases he with he | he | he
            · exact ⟨_, _, mem_ite_redirect he⟩
            · exact ⟨_, _, mem_ite_redirect he⟩
            · exact ⟨_, _, mem_ite_redirect he⟩

theorem entry_not_in_child_redirects (os : Int → Nat → Dup2Result)
    (flags : StandardStream) (st : ChildState) :
    Event.entryInvoked ∉ (child_redirects os flags st).1 := by
  intro hmem
  obtain ⟨fd, slot, h⟩ := child_redirects_fst_shape os flags st _ hmem
  cases h

theorem child_redirects_pipes (os : Int → Nat → Dup2Result)
    (flags : StandardStream) (st : ChildState) :
    (child_redirects os flags st).2.1.stdin_pipe = st.stdin_pipe ∧
    (child_redirects os flags st).2.1.stdout_pipe = st.stdout_pipe ∧
    (child_redirects os flags st).2.1.stderr_pipe = st.stderr_pipe := by
  unfold child_redirects
  split
  · next e1 st1 f heq =>
      have h1 : st1 = (redirect_if os flags.stdin st.stdin_pipe.read_fd 0 st).2.1 :=
        (congrArg (fun p => p.2.1) heq).symm
      rw [h1]
      exact redirect_if_pipes os flags.stdin st.stdin_pipe.read_fd 0 st
  · next e1 st1 heq =>
      have h1 : st1 = (redirect_if os flags.stdin st.stdin_pipe.read_fd 0 st).2.1 :=
        (congrArg (fun p => p.2.1) heq).symm
      have p1 := redirect_if_pipes os flags.stdin st.stdin_pipe.read_fd 0 st
      rw [← h1] at p1
      split
      · next e2 st2 f heq2 =>
          have h2 : st2 = (redirect_if os flags.stdout st1.stdout_pipe.write_fd 1 st1).2.1 :=
            (congrArg (fun p => p.2.1) heq2).symm
          have p2 := redirect_if_pipes os flags.stdout st1.stdout_pipe.write_fd 1 st1
          rw [← h2] at p2
          exact ⟨p2.1.trans p1.1, p2.2.1.trans p1.2.1, p2.2.2.trans p1.2.2⟩
      · next e2 st2 heq2 =>
          have h2 : st2 = (redirect_if os flags.stdout st1.stdout_pipe.write_fd 1 st1).2.1 :=
            (congrArg (fun p => p.2.1) heq2).symm
          have p2 := redirect_if_pipes os flags.stdout st1.stdout_pipe.write_fd 1 st1
          rw [← h2] at p2
          split
          next e3 st3 r heq3 =>
            have h3 : st3 = (redirect_if os flags.stderr st2.stderr_pipe.write_fd 2 st2).2.1 :=
              (congrArg (fun p => p.2.1) heq3).symm
            have p3 := redirect_if_pipes os flags.stderr st2.stderr_pipe.write_fd 2 st2
            rw [← h3] at p3
            exact ⟨p3.1.trans (p2.1.trans p1.1),
              p3.2.1.trans (p2.2.1.trans p1.2.1),
              p3.2.2.trans (p2.2.2.trans p1.2.2)⟩

theorem fork_child_run_empty_events (os : Int → Nat → Dup2Result)
    (entry : EntryBehavior) (st : ChildState) :
    (fork_child_run os StandardStream.empty entry st).events =
      close_events ++ [Event.entryInvoked] := by
  cases entry <;> rfl

theorem find_first_of_lt_length {s : List Char} {c : Char} {i : Nat}
    (h : find_first_of s c = some i) : i < s.length := by
  induction s generalizing i with
  | nil => cases h
  | cons x xs ih =>
    rw [find_first_of] at h
    by_cases hx : x = c
    · rw [if_pos hx] at h
      cases h
      simp
    · rw [if_neg hx] at h
      rcases hj : find_first_of xs c with _ | j
      · rw [hj] at h; cases h
      · rw [hj] at h
        simp at h
        have := ih hj
        simp only [List.length_cons]
        omega

theorem find_last_of_lt_length {s : List Char} {c : Char} {i : Nat}
    (h : find_last_of s c = some i) : i < s.length := by
  rw [find_last_of] at h
  rcases hj : find_first_of s.reverse c with _ | j
  · rw [hj] at h; cases h
  · rw [hj] at h
    simp at h
    have hjl := find_first_of_lt_length hj
    rw [List.length_reverse] at hjl
    omega

theorem size_t_sub2_eq {last first : Nat} (h3 : first + 2 ≤ last)
    (h4 : last < 2 ^ 64) : size_t_sub2 last first = last - first - 2 := by
  unfold size_t_sub2
  have h0 : (0 : Int) ≤ (last : Int) - (first : Int) - 2 := by
    have := Int.ofNat_le.mpr h3
    push_cast at this ⊢
    omega
  have hlt : (last : Int) - (first : Int) - 2 < (2 : Int) ^ 64 := by
    have := Int.ofNat_lt.mpr h4
    push_cast at this ⊢
    omega
  rw [Int.emod_eq_of_lt h0 hlt]
  omega

theorem dropLast_take {α : Type} (l : List α) (n : Nat) (h : n ≤ l.length) :
    (l.take n).dropLast = l.take (n - 1) := by
  rw [List.dropLast_eq_take, List.length_take, List.take_take]
  congr 1
  omega

theorem fork_child_run_final_pipes (os : Int → Nat → Dup2Result)
    (flags : StandardStream) (entry : EntryBehavior) (st0 : ChildState) :
    (fork_child_run os flags entry st0).finalState.stdin_pipe =
      st0.stdin_pipe.close_write_fd ∧
    (fork_child_run os flags entry st0).finalState.stdout_pipe =
      st0.stdout_pipe.close_read_fd ∧
    (fork_child_run os flags entry st0).finalState.stderr_pipe =
      st0.stderr_pipe.close_read_fd := by
  have hp := child_redirects_pipes os flags (close_unneeded_ends st0)
  unfold fork_child_run
  rcases h : child_redirects os flags (close_unneeded_ends st0) with ⟨evs, st2, f⟩
  rw [h] at hp
  rcases f with _ | f
  · rcases hre : runEntry entry with f | s <;> simp only [h] <;> exact hp
  · simp only [h]
    exact hp

theorem fork_child_run_events_shape (os : Int → Nat → Dup2Result)
    (flags : StandardStream) (entry : EntryBehavior) (st0 : ChildState) :
    ∃ rest, (fork_child_run os flags entry st0).events = close_events ++ rest := by
  unfold fork_child_run
  rcases h : child_redirects os flags (close_unneeded_ends st0) with ⟨evs, st2, f⟩
  rcases f with _ | f
  · rcases hre : runEntry entry with f | s <;> simp only [h, hre] <;>
      exact ⟨_, by rw [List.append_assoc]⟩
  · simp only [h]
    exact ⟨evs, rfl⟩

/-! ### The claims -/

/-- C1: for every entry callable and every flags value, on the child path of
`fork` or `vfork` (duplication succeeded and returned pid 0) the launcher's
outcome is the unconditional `::exit` of the child block — never the parent
path's return of a handle and never an error propagated to the call site —
regardless of the entry behaviour, the dup2 oracle, or the pipe values. -/
theorem claim_C1 (alloc : Nat → Pipe) (osD : Int → Nat → Dup2Result)
    (entry : EntryBehavior) (flags : StandardStream) (fds0 : FdTable) :
    (∃ r, fork alloc (Except.ok 0) osD entry flags fds0 =
       ForkOutcome.childExited r) ∧
    (∃ r, vfork (Except.ok 0) osD entry flags fds0 =
       ForkOutcome.childExited r) ∧
    (∀ h, fork alloc (Except.ok 0) osD entry flags fds0 ≠ ForkOutcome.parent h) ∧
    (∀ e, fork alloc (Except.ok 0) osD entry flags fds0 ≠ ForkOutcome.error e) ∧
    (∀ h, vfork (Except.ok 0) osD entry flags fds0 ≠ ForkOutcome.parent h) ∧
    (∀ e, vfork (Except.ok 0) osD entry flags fds0 ≠ ForkOutcome.error e) := by
  refine ⟨⟨_, rfl⟩, ⟨_, rfl⟩, ?_, ?_, ?_, ?_⟩ <;> intro x h <;> cases h

/-- C4: the address-space-sharing path (`vfork`) does not honor the caller's
stream flags when setting up pipes: for every flags value all three of its
pipes are the invalid sentinel and nothing is allocated, unlike `fork`, whose
allocation count equals the number of requested stream bits. -/
theorem claim_C4 (alloc : Nat → Pipe) (flags : StandardStream) :
    (vfork_pipe_setup flags).stdin_pipe = Pipe.invalid ∧
    (vfork_pipe_setup flags).stdout_pipe = Pipe.invalid ∧
    (vfork_pipe_setup flags).stderr_pipe = Pipe.invalid ∧
    (vfork_pipe_setup flags).allocCount = 0 ∧
    (fork_pipe_setup alloc flags).allocCount = flags.bits := by
  refine ⟨rfl, rfl, rfl, rfl, ?_⟩
  obtain ⟨si, so, se⟩ := flags
  cases si <;> cases so <;> cases se <;> rfl

/-- C6: when the OS duplication primitive returns -1 with error code `e`, both
launchers raise a `ResourceError` (a `std::system_error`) carrying `e` to the
caller through the normal return path; no child ran and no handle was
produced. -/
theorem claim_C6 (alloc : Nat → Pipe) (osD : Int → Nat → Dup2Result)
    (entry : EntryBehavior) (flags : StandardStream) (fds0 : FdTable) (e : Nat) :
    fork alloc (Except.error e) osD entry flags fds0 = ForkOutcome.error e ∧
    vfork (Except.error e) osD entry flags fds0 = ForkOutcome.error e ∧
    (∀ r, fork alloc (Except.error e) osD entry flags fds0 ≠
       ForkOutcome.childExited r) ∧
    (∀ h, fork alloc (Except.error e) osD entry flags fds0 ≠
       ForkOutcome.parent h) ∧
    (∀ r, vfork (Except.error e) osD entry flags fds0 ≠
       ForkOutcome.childExited r) ∧
    (∀ h, vfork (Except.error e) osD entry flags fds0 ≠
       ForkOutcome.parent h) := by
  refine ⟨rfl, rfl, ?_, ?_, ?_, ?_⟩ <;> intro x h <;> cases h

/-- C10: given identical pipe values, flags, entry behaviour and dup2 oracle,
the child-side blocks of `fork` and `vfork` are behaviourally equivalent: the
same trace of pipe-end closes and redirections in the same order, the same
caught fault (hence the same diagnostics), the same exit status and the same
final state. -/
theorem claim_C10 (os : Int → Nat → Dup2Result) (flags : StandardStream)
    (entry : EntryBehavior) (st : ChildState) :
    fork_child_run os flags entry st = vfork_child_run os flags entry st := rfl

/-- C3: for every flags value, `fork`'s pipe set-up allocates exactly one real
pipe per stream bit set (the successive results of the allocating
constructor, each of which holds its endpoints) and leaves the invalid
sentinel for each bit unset; the total allocation count is the number of set
bits, and requesting the empty flag set allocates nothing and the child block
then performs no redirection at all. -/
theorem claim_C3 (alloc : Nat → Pipe) (flags : StandardStream)
    (hreal : ∀ n, (alloc n).holds_an_end) :
    (fork_pipe_setup alloc flags).allocCount = flags.bits ∧
    ¬ Pipe.invalid.holds_an_end ∧
    (flags.stdin = true → (fork_pipe_setup alloc flags).stdin_pipe = alloc 0 ∧
      (fork_pipe_setup alloc flags).stdin_pipe.holds_an_end) ∧
    (flags.stdin = false → (fork_pipe_setup alloc flags).stdin_pipe = Pipe.invalid) ∧
    (flags.stdout = true → (fork_pipe_setup alloc flags).stdout_pipe =
      alloc (if flags.stdin then 1 else 0) ∧
      (fork_pipe_setup alloc flags).stdout_pipe.holds_an_end) ∧
    (flags.stdout = false → (fork_pipe_setup alloc flags).stdout_pipe = Pipe.invalid) ∧
    (flags.stderr = true → (fork_pipe_setup alloc flags).stderr_pipe =
      alloc ((if flags.stdin then 1 else 0) + (if flags.stdout then 1 else 0)) ∧
      (fork_pipe_setup alloc flags).stderr_pipe.holds_an_end) ∧
    (flags.stderr = false → (fork_pipe_setup alloc flags).stderr_pipe = Pipe.invalid) ∧
    ((fork_pipe_setup alloc StandardStream.empty).allocCount = 0 ∧
      ∀ os entry st fd slot, Event.redirectCall fd slot ∉
        (fork_child_run os StandardStream.empty entry st).events) := by
  obtain ⟨si, so, se⟩ := flags
  refine ⟨?_, ?_, ?_, ?_, ?_, ?_, ?_, ?_, rfl, ?_⟩
  · cases si <;> cases so <;> cases se <;> rfl
  · intro h
    rcases h with h | h <;> simp [Pipe.invalid] at h
  · intro h
    cases si <;> simp_all [fork_pipe_setup, hreal 0]
  · intro h
    cases si <;> simp_all [fork_pipe_setup]
  · intro h
    cases so <;> simp_all [fork_pipe_setup, hreal]
  · intro h
    cases so <;> simp_all [fork_pipe_setup]
  · intro h
    cases se <;> simp_all [fork_pipe_setup, hreal]
  · intro h
    cases se <;> simp_all [fork_pipe_setup]
  · intro os entry st fd slot hmem
    rw [fork_child_run_empty_events] at hmem
    simp [close_events] at hmem

/-- C5: after duplication the two processes retain exactly opposite pipe ends.
The child block first closes the write end of the stdin pipe and the read ends
of the stdout/stderr pipes (its first three trace events), so its final pipes
keep only the opposite ends; the parent path closes the read end of the stdin
pipe and the write ends of the stdout/stderr pipes and returns a
`ChildProcess` carrying the process id and those retained ends.  Closing
either end is the identity — a no-op — on the invalid sentinel, and closing
one end never disturbs the other. -/
theorem claim_C5 (alloc : Nat → Pipe) (osD : Int → Nat → Dup2Result)
    (entry : EntryBehavior) (flags : StandardStream) (fds0 : FdTable)
    (pid : Int) (hpid : is_child pid = false) :
    (∃ r, fork alloc (Except.ok 0) osD entry flags fds0 =
        ForkOutcome.childExited r ∧
      r.events.take 3 = close_events ∧
      r.finalState.stdin_pipe =
        (fork_pipe_setup alloc flags).stdin_pipe.close_write_fd ∧
      r.finalState.stdout_pipe =
        (fork_pipe_setup alloc flags).stdout_pipe.close_read_fd ∧
      r.finalState.stderr_pipe =
        (fork_pipe_setup alloc flags).stderr_pipe.close_read_fd) ∧
    (∃ h, fork alloc (Except.ok pid) osD entry flags fds0 =
        ForkOutcome.parent h ∧
      h.pid = pid ∧
      h.stdin_pipe = (fork_pipe_setup alloc flags).stdin_pipe.close_read_fd ∧
      h.stdout_pipe = (fork_pipe_setup alloc flags).stdout_pipe.close_write_fd ∧
      h.stderr_pipe = (fork_pipe_setup alloc flags).stderr_pipe.close_write_fd) ∧
    (∀ p : Pipe, p.close_write_fd.read_fd = p.read_fd ∧
      p.close_write_fd.write_fd = -1 ∧
      p.close_read_fd.write_fd = p.write_fd ∧
      p.close_read_fd.read_fd = -1) ∧
    Pipe.invalid.close_read_fd = Pipe.invalid ∧
    Pipe.invalid.close_write_fd = Pipe.invalid := by
  refine ⟨?_, ?_, fun p => ⟨rfl, rfl, rfl, rfl⟩, rfl, rfl⟩
  · refine ⟨_, rfl, ?_, ?_⟩
    · obtain ⟨rest, hev⟩ := fork_child_run_events_shape osD flags entry
        ⟨(fork_pipe_setup alloc flags).stdin_pipe,
         (fork_pipe_setup alloc flags).stdout_pipe,
         (fork_pipe_setup alloc flags).stderr_pipe, fds0⟩
      rw [hev]
      rfl
    · exact fork_child_run_final_pipes osD flags entry _
  · refine ⟨⟨pid, (fork_pipe_setup alloc flags).stdin_pipe.close_read_fd,
      (fork_pipe_setup alloc flags).stdout_pipe.close_write_fd,
      (fork_pipe_setup alloc flags).stderr_pipe.close_write_fd⟩, ?_, rfl, rfl, rfl, rfl⟩
    simp [fork, hpid]

/-- C5 witness: concrete run of `claim_C5` with pid 1 on the parent side. -/
theorem claim_C5_witness :
    (∃ h, fork alloc34 (Except.ok 1) osOk (EntryBehavior.ret Status.success)
        ⟨true, true, true⟩ fds_empty = ForkOutcome.parent h ∧
      h.pid = 1 ∧
      h.stdin_pipe = (fork_pipe_setup alloc34 ⟨true, true, true⟩).stdin_pipe.close_read_fd ∧
      h.stdout_pipe = (fork_pipe_setup alloc34 ⟨true, true, true⟩).stdout_pipe.close_write_fd ∧
      h.stderr_pipe = (fork_pipe_setup alloc34 ⟨true, true, true⟩).stderr_pipe.close_write_fd) ∧
    Pipe.invalid.close_read_fd = Pipe.invalid :=
  ⟨(claim_C5 alloc34 osOk (EntryBehavior.ret Status.success) ⟨true, true, true⟩
      fds_empty 1 (by decide)).2.1,
   (claim_C5 alloc34 osOk (EntryBehavior.ret Status.success) ⟨true, true, true⟩
      fds_empty 1 (by decide)).2.2.2.1⟩

/-- Every pipe `alloc34` hands out holds its endpoints. -/
theorem alloc34_real (n : Nat) : (alloc34 n).holds_an_end :=
  Or.inl (by simp [alloc34])

/-- C3 witness: concrete run of `claim_C3` with stdin and stderr requested. -/
theorem claim_C3_witness :
    (fork_pipe_setup alloc34 ⟨true, false, true⟩).allocCount =
      StandardStream.bits ⟨true, false, true⟩ ∧
    (fork_pipe_setup alloc34 ⟨true, false, true⟩).stdout_pipe = Pipe.invalid ∧
    (fork_pipe_setup alloc34 ⟨true, false, true⟩).stdin_pipe = alloc34 0 ∧
    (fork_pipe_setup alloc34 StandardStream.empty).allocCount = 0 :=
  ⟨(claim_C3 alloc34 ⟨true, false, true⟩ alloc34_real).1,
   (claim_C3 alloc34 ⟨true, false, true⟩ alloc34_real).2.2.2.2.2.1 rfl,
   ((claim_C3 alloc34 ⟨true, false, true⟩ alloc34_real).2.2.1 rfl).1,
   (claim_C3 alloc34 ⟨true, false, true⟩ alloc34_real).2.2.2.2.2.2.2.2.1⟩

/-- C2 counterexample: a child-path run in which the requested stdin
redirection fails (dup2 returns -1 with errno 9): the entry callable is then
not invoked at all, refuting "the entry callable is invoked exactly once" as
an unconditional statement about the child path. -/
theorem claim_C2_cex :
    ¬ ((fork_child_run osFail9 ⟨true, false, false⟩
        (EntryBehavior.ret Status.success) sampleChildState).events.count
          Event.entryInvoked = 1) := by
  decide

/-- C2 (amended): inside the child block the entry callable is invoked exactly
once provided the requested redirections all succeed; the fault boundary then
determines the exit: on normal return the exit status is the callable's
result and nothing is caught, while on a typed (`std::exception`) or untyped
fault the exit status is the failure status and the fault is caught at the
boundary, where the handler writes the diagnostic message and backtrace to the
error stream.  When a redirection fails instead, the entry callable is not
invoked and the child still exits with the failure status, the redirection
fault being caught at the same boundary.  In every case the block resolves by
`::exit`; no fault escapes as an OS-level crash. -/
theorem claim_C2_amended (os : Int → Nat → Dup2Result) (flags : StandardStream)
    (entry : EntryBehavior) (st : ChildState) :
    ((child_redirects os flags (close_unneeded_ends st)).2.2 = none →
      (fork_child_run os flags entry st).events.count Event.entryInvoked = 1 ∧
      (∀ s, entry = EntryBehavior.ret s →
        (fork_child_run os flags entry st).status = s ∧
        (fork_child_run os flags entry st).caught = none) ∧
      (entry = EntryBehavior.throwStd →
        (fork_child_run os flags entry st).status = Status.failure ∧
        (fork_child_run os flags entry st).caught = some Fault.stdExc) ∧
      (entry = EntryBehavior.throwOther →
        (fork_child_run os flags entry st).status = Status.failure ∧
        (fork_child_run os flags entry st).caught = some Fault.otherExc)) ∧
    (∀ f, (child_redirects os flags (close_unneeded_ends st)).2.2 = some f →
      (fork_child_run os flags entry st).events.count Event.entryInvoked = 0 ∧
      (fork_child_run os flags entry st).status = Status.failure ∧
      (fork_child_run os flags entry st).caught = some f) := by
  have hnot := entry_not_in_child_redirects os flags (close_unneeded_ends st)
  rcases h : child_redirects os flags (close_unneeded_ends st) with ⟨evs, st2, fr⟩
  rw [h] at hnot
  have hcnt : evs.count Event.entryInvoked = 0 := List.count_eq_zero.mpr hnot
  rcases fr with _ | f
  · refine ⟨fun _ => ?_, fun f hf => by cases hf⟩
    have hclose : close_events.count Event.entryInvoked = 0 := by decide
    rcases entry with s | _ | _ <;>
      refine ⟨?_, ?_, ?_, ?_⟩ <;>
      simp_all [fork_child_run, h, runEntry, List.count_append]
  · refine ⟨fun hf => (by cases hf), fun f' hf => ?_⟩
    have hf' : f = f' := by
      simpa using hf
    subst hf'
    have hclose : close_events.count Event.entryInvoked = 0 := by decide
    refine ⟨?_, ?_, ?_⟩ <;>
      simp_all [fork_child_run, h, List.count_append]

/-- When both parentheses are found, `process_symbol` consults the demangler
on the offset-stripped `substr(first+1, (last-1)-(first+1))` and substitutes
its output exactly on success. -/
theorem process_symbol_eq (cxa : List Char → Option (List Char))
    (symbol : List Char) {first last : Nat}
    (hf : find_first_of symbol '(' = some first)
    (hl : find_last_of symbol ')' = some last) :
    process_symbol cxa symbol =
      (match cxa (strip_plus (substr symbol (first + 1) (size_t_sub2 last first))) with
       | some d => d
       | none => symbol) := by
  unfold process_symbol
  rw [hf, hl]
  rcases hc : cxa (strip_plus (substr symbol (first + 1) (size_t_sub2 last first)))
      with _ | d <;>
    simp [demangle, hc]

/-- `process_symbol` keeps the raw text when either parenthesis is absent. -/
theorem process_symbol_raw (cxa : List Char → Option (List Char))
    (symbol : List Char)
    (h : find_first_of symbol '(' = none ∨ find_last_of symbol ')' = none) :
    process_symbol cxa symbol = symbol := by
  unfold process_symbol
  rcases h with h | h
  · rw [h]
  · rw [h]
    rcases h2 : find_first_of symbol '(' with _ | first <;> rfl

/-- C7 counterexample: on the glibc-shaped frame text
`./a.out(_Z3foov) [0x400b2c]` — a parenthesized mangled-name segment with no
"+offset" suffix — the claimed processing isolates `_Z3foov` and demangles it
to `foo()`, but the code's `substr(first+1, (last-1)-(first+1))` is one
character short: it hands `_Z3foo` to the demangler, which fails, so the raw
text is kept. -/
theorem claim_C7_cex :
    process_symbol cxa_foo ("./a.out(_Z3foov) [0x400b2c]".toList) ≠
      process_symbol_claim cxa_foo ("./a.out(_Z3foov) [0x400b2c]".toList) := by
  decide

/-- C7 (amended): one line is emitted per captured frame, innermost first
(line `i` pairs frame `i`'s address with its processed symbol), and at most
`max_frames = 100` frames are processed.  Per frame, when the raw text
contains a `(` (first occurrence at `first`) and a `)` (last occurrence at
`last`) with `first + 2 ≤ last`, the code isolates the characters strictly
between the parentheses excluding the final one, strips any suffix from the
first `+` on, and attempts demangling on that candidate: on success the
human-readable name is substituted, on failure the raw text is kept
unchanged. -/
theorem claim_C7_amended (cxa : List Char → Option (List Char))
    (stack : List Frame) (symbol : List Char) (first last : Nat)
    (hf : find_first_of symbol '(' = some first)
    (hl : find_last_of symbol ')' = some last)
    (h2 : first + 2 ≤ last) (hlen : symbol.length < 2 ^ 64) :
    (print_backtrace cxa stack).length = min stack.length max_frames ∧
    (∀ i, i < max_frames →
      (print_backtrace cxa stack)[i]? = (stack[i]?).map
        (fun fr => ⟨fr.address, process_symbol cxa fr.symbolText⟩)) ∧
    process_symbol cxa symbol =
      (match cxa (strip_plus
          (((symbol.drop (first + 1)).take (last - (first + 1))).dropLast)) with
       | some d => d
       | none => symbol) := by
  have hlast := find_last_of_lt_length hl
  refine ⟨?_, ?_, ?_⟩
  · rw [print_backtrace, List.length_map, List.length_take, Nat.min_comm]
  · intro i hi
    rw [print_backtrace, List.getElem?_map, List.getElem?_take_of_lt hi]
  · have h4 : last < 2 ^ 64 := lt_trans hlast hlen
    have hsz : size_t_sub2 last first = last - first - 2 := size_t_sub2_eq h2 h4
    have hdrop : ((symbol.drop (first + 1)).take (last - (first + 1))).dropLast =
        (symbol.drop (first + 1)).take (last - (first + 1) - 1) := by
      apply dropLast_take
      rw [List.length_drop]
      omega
    have hc2 : substr symbol (first + 1) (last - first - 2) =
        (symbol.drop (first + 1)).take (last - (first + 1) - 1) := by
      unfold substr
      congr 1
    rw [process_symbol_eq cxa symbol hf hl, hsz, hc2, ← hdrop]

/-- C7 witness: concrete run of `claim_C7_amended` on a frame text with a
"+offset" suffix (where the candidate is the full mangled name and demangling
succeeds). -/
theorem claim_C7_amended_witness :
    process_symbol cxa_foo ("./a.out(_Z3foov+0x1f) [0x400b2c]".toList) =
      (match cxa_foo (strip_plus
          (((("./a.out(_Z3foov+0x1f) [0x400b2c]".toList).drop (7 + 1)).take
            (20 - (7 + 1))).dropLast)) with
       | some d => d
       | none => "./a.out(_Z3foov+0x1f) [0x400b2c]".toList) :=
  (claim_C7_amended cxa_foo [] ("./a.out(_Z3foov+0x1f) [0x400b2c]".toList) 7 20
    (by decide) (by decide) (by decide) (by decide)).2.2

/-- C8: the crash reporter emits nothing when zero frames are captured; it is
a total function of its oracles (so it never itself raises, and the child
block's exit does not depend on it); a frame text without the parenthesized
layout is emitted raw; and every emitted symbol is either the raw frame text
or a successful demangler output, so unrecognized layouts degrade to the raw
text. -/
theorem claim_C8 (cxa : List Char → Option (List Char)) (symbol : List Char) :
    print_backtrace cxa [] = [] ∧
    ((find_first_of symbol '(' = none ∨ find_last_of symbol ')' = none) →
      process_symbol cxa symbol = symbol) ∧
    (process_symbol cxa symbol = symbol ∨
      ∃ m, cxa m = some (process_symbol cxa symbol)) := by
  refine ⟨rfl, process_symbol_raw cxa symbol, ?_⟩
  rcases hf : find_first_of symbol '(' with _ | first
  · exact Or.inl (process_symbol_raw cxa symbol (Or.inl hf))
  · rcases hl : find_last_of symbol ')' with _ | last
    · exact Or.inl (process_symbol_raw cxa symbol (Or.inr hl))
    · rw [process_symbol_eq cxa symbol hf hl]
      rcases hc : cxa (strip_plus (substr symbol (first + 1)
          (size_t_sub2 last first))) with _ | d
      · left
        rfl
      · right
        exact ⟨_, hc⟩

/-- C8 witness: a frame text with no parentheses passes through unchanged. -/
theorem claim_C8_witness :
    process_symbol cxa_foo ("no parens here".toList) = "no parens here".toList :=
  (claim_C8 cxa_foo ("no parens here".toList)).2.1 (Or.inl (by decide))

/-- C9: the stream redirector duplicates the source descriptor onto the
standard slot — on success the slot refers to the source descriptor and no
other slot changes — and raises a `ResourceError` (`std::system_error`)
carrying the OS error code when dup2 fails.  On the child path such a failure
is caught by the fault boundary: the child exits with the failure status, the
fault (with its error code) is caught — diagnostics written — and the entry
callable is never reached; nothing propagates to the caller. -/
theorem claim_C9 (os : Int → Nat → Dup2Result) (t : FdTable) (fd : Int)
    (slot : Nat) (e : Nat) (flags : StandardStream) (entry : EntryBehavior)
    (st : ChildState) :
    (os fd slot = Dup2Result.ok →
      ∃ t', redirect_stream_to_fd os t fd slot = Except.ok t' ∧
        t' slot = fd ∧ ∀ s, s ≠ slot → t' s = t s) ∧
    (os fd slot = Dup2Result.err e →
      redirect_stream_to_fd os t fd slot = Except.error (Fault.sysError e)) ∧
    (flags.stdin = true → os st.stdin_pipe.read_fd 0 = Dup2Result.err e →
      (fork_child_run os flags entry st).status = Status.failure ∧
      (fork_child_run os flags entry st).caught = some (Fault.sysError e) ∧
      Event.entryInvoked ∉ (fork_child_run os flags entry st).events) := by
  refine ⟨?_, ?_, ?_⟩
  · intro h
    refine ⟨fun s => if s = slot then fd else t s, ?_, if_pos rfl,
      fun s hs => if_neg hs⟩
    simp [redirect_stream_to_fd, h]
  · intro h
    simp [redirect_stream_to_fd, h]
  · intro h1 h2
    have hread : (close_unneeded_ends st).stdin_pipe.read_fd =
        st.stdin_pipe.read_fd := rfl
    have hri : redirect_if os flags.stdin
        (close_unneeded_ends st).stdin_pipe.read_fd 0 (close_unneeded_ends st) =
        ([Event.redirectCall st.stdin_pipe.read_fd 0], close_unneeded_ends st,
          some (Fault.sysError e)) := by
      rw [h1]
      simp [redirect_if, redirect_stream_to_fd, hread, h2]
    have hred : child_redirects os flags (close_unneeded_ends st) =
        ([Event.redirectCall st.stdin_pipe.read_fd 0], close_unneeded_ends st,
          some (Fault.sysError e)) := by
      unfold child_redirects
      rw [hri]
    refine ⟨?_, ?_, ?_⟩ <;> simp [fork_child_run, hred, close_events]

/-- C9 witness: concrete successful and failing dup2 calls, and a child run
whose stdin redirection fails. -/
theorem claim_C9_witness :
    (∃ t', redirect_stream_to_fd osOk fds_empty 5 1 = Except.ok t' ∧
      t' 1 = 5 ∧ ∀ s, s ≠ 1 → t' s = fds_empty s) ∧
    redirect_stream_to_fd osFail9 fds_empty 5 1 =
      Except.error (Fault.sysError 9) ∧
    (fork_child_run osFail9 ⟨true, true, true⟩ (EntryBehavior.ret Status.success)
      sampleChildState).status = Status.failure :=
  ⟨(claim_C9 osOk fds_empty 5 1 9 ⟨true, true, true⟩
      (EntryBehavior.ret Status.success) sampleChildState).1 rfl,
   (claim_C9 osFail9 fds_empty 5 1 9 ⟨true, true, true⟩
      (EntryBehavior.ret Status.success) sampleChildState).2.1 rfl,
   ((claim_C9 osFail9 fds_empty 5 1 9 ⟨true, true, true⟩
      (EntryBehavior.ret Status.success) sampleChildState).2.2 rfl rfl).1⟩

/-- C1 witness: concrete child-path runs of both launchers. -/
theorem claim_C1_witness :
    (∃ r, fork alloc34 (Except.ok 0) osOk EntryBehavior.throwStd
      ⟨true, false, false⟩ fds_empty = ForkOutcome.childExited r) ∧
    (∃ r, vfork (Except.ok 0) osOk EntryBehavior.throwStd
      ⟨true, false, false⟩ fds_empty = ForkOutcome.childExited r) :=
  ⟨(claim_C1 alloc34 osOk EntryBehavior.throwStd ⟨true, false, false⟩
      fds_empty).1,
   (claim_C1 alloc34 osOk EntryBehavior.throwStd ⟨true, false, false⟩
      fds_empty).2.1⟩

/-- C6 witness: concrete failing duplication with errno 12 (`ENOMEM`). -/
theorem claim_C6_witness :
    fork alloc34 (Except.error 12) osOk (EntryBehavior.ret Status.success)
      ⟨false, false, false⟩ fds_empty = ForkOutcome.error 12 ∧
    vfork (Except.error 12) osOk (EntryBehavior.ret Status.success)
      ⟨false, false, false⟩ fds_empty = ForkOutcome.error 12 :=
  ⟨(claim_C6 alloc34 osOk (EntryBehavior.ret Status.success)
      ⟨false, false, false⟩ fds_empty 12).1,
   (claim_C6 alloc34 osOk (EntryBehavior.ret Status.success)
      ⟨false, false, false⟩ fds_empty 12).2.1⟩

/-- C2 witness: concrete run of `claim_C2_amended` in which all three
redirections are requested and succeed and the entry returns success. -/
theorem claim_C2_amended_witness :
    (fork_child_run osOk ⟨true, true, true⟩ (EntryBehavior.ret Status.success)
      sampleChildState).events.count Event.entryInvoked = 1 ∧
    (fork_child_run osOk ⟨true, true, true⟩ (EntryBehavior.ret Status.success)
      sampleChildState).status = Status.success :=
  ⟨((claim_C2_amended osOk ⟨true, true, true⟩ (EntryBehavior.ret Status.success)
      sampleChildState).1 (by decide)).1,
   (((claim_C2_amended osOk ⟨true, true, true⟩ (EntryBehavior.ret Status.success)
      sampleChildState).1 (by decide)).2.1 Status.success rfl).1⟩

end CorePosix
